import Mathlib

/-!
Verification development for the Ethernaut evaluation harness.

Shallow embedding of the core of the repository:
  * `src/ethernaut/metrics.py`    — per-session metrics and the cross-session aggregator
  * `src/ethernaut/evaluator.py`  — session loop, tool dispatcher, three-stage JSON extraction
  * `src/ethernaut/js_sandbox.py` — sandbox protocol client (`send_command`, `stop`)
  * `src/ethernaut/anvil_manager.py` — chain environment manager (`stop`)

Python floats are modelled by `ℚ`; Python `round(x, k)` is modelled by rounding
`x * 10^k` to the nearest integer (the half-way tie-breaking difference between
Python's float rounding and `round` on `ℚ` is irrelevant at every input used
below).  External collaborators (`json.loads`, the chain RPC, the Node
subprocess, the compiler) are abstracted as function parameters; everything
else is translated statement by statement from the Python source.
-/

namespace Ethernaut

/-- Python `round(x, 3)` over `ℚ` (used by `metrics.py` for rates and scores). -/
def round3 (q : ℚ) : ℚ := (round (q * 1000) : ℤ) / 1000

/-- Python `round(x, 2)` over `ℚ` (used by `metrics.py` for times and averages). -/
def round2 (q : ℚ) : ℚ := (round (q * 100) : ℤ) / 100

/-- Occurrence test for a pattern inside a character list. -/
def containsSub (needle : List Char) : List Char → Bool
  | [] => needle = []
  | c :: rest => needle.isPrefixOf (c :: rest) || containsSub needle rest

/-- Python substring test `needle in hay` (`str.__contains__`). -/
def pyInStr (needle hay : String) : Bool := needle = "" || containsSub needle.data hay.data

/-- The suffix following the first occurrence of `pat` (Python/`re` leftmost
match), `none` when `pat` does not occur. -/
def afterFirst (pat : List Char) : List Char → Option (List Char)
  | [] => if pat = [] then some [] else none
  | c :: rest =>
    if pat.isPrefixOf (c :: rest) then some ((c :: rest).drop pat.length)
    else afterFirst pat rest

/-- The prefix preceding the first occurrence of `pat`, `none` when `pat` does
not occur. -/
def beforeFirst (pat : List Char) : List Char → Option (List Char)
  | [] => if pat = [] then some [] else none
  | c :: rest =>
    if pat.isPrefixOf (c :: rest) then some []
    else (beforeFirst pat rest).map (c :: ·)

/-- Strip leading and trailing whitespace (the `\s*` bordering the lazy capture
group in the extraction regexes; Python `\s` also covers `\f`/`\v`, which no
input of interest contains). -/
def trimChars (l : List Char) : List Char :=
  ((l.dropWhile Char.isWhitespace).reverse.dropWhile Char.isWhitespace).reverse

/-- Python character slicing `s[:n]`. -/
def strTake (n : ℕ) (s : String) : String := String.mk (s.data.take n)

/-- Python `str.lower()`. -/
def strToLower (s : String) : String := String.mk (s.data.map Char.toLower)

/-- Lexicographic comparison by code point (Python string `<=`). -/
def charListLe : List Char → List Char → Bool
  | [], _ => true
  | _ :: _, [] => false
  | a :: as, b :: bs => if a = b then charListLe as bs else decide (a.toNat < b.toNat)

/-- Python string comparison `a <= b`. -/
def strLe (a b : String) : Bool := charListLe a.data b.data

/-- Python truthiness of an optional string: `None` and the empty string are falsy. -/
def pyTruthy : Option String → Bool
  | none => false
  | some s => s ≠ ""

/-- Python `str()` of an optional string, `str(None) = "None"`. -/
def pyStr : Option String → String
  | none => "None"
  | some s => s

/-- Record of a single tool call (`metrics.py`, `ToolCallRecord`).  The wall-clock
`timestamp` field is outside the model (nondeterministic `time.time()`); `args` is
modelled as an association list of string-valued arguments, `result` as the
`str()` image of the recorded result (`none` = Python `None` / falsy). -/
structure ToolCallRecord where
  tool_name : Option String
  args : List (String × String)
  success : Bool
  result : Option String
  error : Option String
deriving DecidableEq, Repr

/-- Result of `MetricsTracker._calculate_exploration_quality`. -/
structure ExplorationQuality where
  hint_following_rate : ℚ
  methods_found : List String
  followed_correct_order : Bool
  score : ℚ
deriving DecidableEq, Repr

/-- Inner step of the scan in `_calculate_exploration_quality`: `methods_found.add`
together with the append-if-absent on `methods_call_order`.  In the source the
set `methods_found` and the list `methods_call_order` receive exactly the same
insertions, so the distinct-order list determines both; we keep the list. -/
def noteMethod (cond : Bool) (order : List String) (m : String) : List String :=
  if cond && !(order.contains m) then order ++ [m] else order

/-- Per-record scan of `_calculate_exploration_quality` (metrics.py lines 192-211):
for a successful `exec_console` record, each expected method is looked for as a
`.method` / `.method(` substring of the code, then (when the recorded result is
truthy) as a case-insensitive substring of the stringified result. -/
def scanRecord (expected : List String) (order : List String) (r : ToolCallRecord) : List String :=
  if r.tool_name = some "exec_console" ∧ r.success = true then
    let code := (List.lookup "code" r.args).getD ""
    let afterCode := expected.foldl
      (fun acc m => noteMethod (pyInStr ("." ++ m) code || pyInStr ("." ++ m ++ "(") code) acc m)
      order
    match r.result with
    | some res =>
      if res ≠ "" then
        let rs := strToLower res
        expected.foldl (fun acc m => noteMethod (pyInStr (strToLower m) rs) acc m) afterCode
      else afterCode
    | none => afterCode
  else order

/-- Sequential order in which expected methods were first observed
(`methods_call_order` in `_calculate_exploration_quality`). -/
def methodsCallOrder (expected : List String) (records : List ToolCallRecord) : List String :=
  records.foldl (scanRecord expected) []

/-- Stable insertion of a string into a sorted list. -/
def insertSorted (x : String) : List String → List String
  | [] => [x]
  | y :: ys => if strLe x y then x :: y :: ys else y :: insertSorted x ys

/-- Python's `sorted` on strings (`sorted(methods_found)`). -/
def sortStrings (l : List String) : List String := l.foldr insertSorted []

/-- Order check of `_calculate_exploration_quality` (metrics.py lines 219-229):
`followed_correct_order` starts `True` and is recomputed only when at least two
methods were called; the called methods are mapped to their first index in the
expected list (`expected_methods.index`, applied after the membership filter of
the source, which never drops anything because only expected methods are
recorded) and the order is correct when adjacent indices strictly increase
(`all(expected_indices[i] < expected_indices[i + 1] ...)`). -/
def pairwiseIncreasing : List ℕ → Bool
  | [] => true
  | [_] => true
  | a :: b :: rest => decide (a < b) && pairwiseIncreasing (b :: rest)

/-- The `followed_correct_order` computation of
`_calculate_exploration_quality` (metrics.py lines 219-229), see
`pairwiseIncreasing`. -/
def followedCorrectOrder (expected order : List String) : Bool :=
  if 2 ≤ order.length then
    pairwiseIncreasing
      ((order.filter (fun m => expected.contains m)).map (fun m => expected.findIdx (· == m)))
  else true

/-- `MetricsTracker._calculate_exploration_quality` (metrics.py lines 171-239). -/
def calculateExplorationQuality (expected : List String) (records : List ToolCallRecord) :
    ExplorationQuality :=
  if expected = [] then ⟨0, [], true, 0⟩
  else
    let order := methodsCallOrder expected records
    let rate : ℚ := (order.length : ℚ) / (expected.length : ℚ)
    let flag := followedCorrectOrder expected order
    let score := rate * (if flag then 6/5 else 4/5)
    ⟨round3 rate, sortStrings order, flag, round3 score⟩

/-- `MetricsTracker._calculate_error_rate` (metrics.py lines 241-251). -/
def calculateErrorRate (records : List ToolCallRecord) : ℚ :=
  if records.length = 0 then 0
  else round3 (((records.filter (fun tc => !tc.success)).length : ℚ) / (records.length : ℚ))

/-- Per-level result record (`metrics.py`, `LevelMetrics`); the serialized
`tool_call_history` list is carried as the raw records. -/
structure LevelMetrics where
  level_id : ℕ
  name : String
  success : Bool
  total_tool_calls : ℕ
  console_calls : ℕ
  time_seconds : ℚ
  turns_used : ℕ
  error_rate : ℚ
  hint_following_rate : ℚ
  tool_call_history : List ToolCallRecord
  error_message : Option String
deriving DecidableEq, Repr

/-- One entry of the `per_level` report in `calculate_aggregate_metrics`. -/
structure PerLevelEntry where
  level_id : ℕ
  name : String
  success : Bool
  turns : ℕ
  time : ℚ
  error_rate : ℚ
  hint_following_rate : ℚ
  error : Option String
deriving DecidableEq, Repr

/-- Aggregate result of `MultiLevelMetricsTracker.calculate_aggregate_metrics`. -/
structure AggregateMetrics where
  levels_attempted : ℕ
  levels_completed : ℕ
  success_rate : ℚ
  total_time_seconds : ℚ
  avg_turns_per_level : ℚ
  avg_error_rate : ℚ
  per_level : List PerLevelEntry
deriving DecidableEq, Repr

/-- `MultiLevelMetricsTracker.calculate_aggregate_metrics` (metrics.py lines 309-358). -/
def calculateAggregateMetrics (lms : List LevelMetrics) : AggregateMetrics :=
  if lms = [] then ⟨0, 0, 0, 0, 0, 0, []⟩
  else
    let attempted := lms.length
    let completed := (lms.filter (fun lm => lm.success)).length
    let success_rate : ℚ := if 0 < attempted then (completed : ℚ) / (attempted : ℚ) else 0
    let total_time : ℚ := (lms.map (fun lm => lm.time_seconds)).sum
    let avg_turns : ℚ := ((lms.map (fun lm => (lm.turns_used : ℚ))).sum) / (attempted : ℚ)
    let avg_error : ℚ := ((lms.map (fun lm => lm.error_rate)).sum) / (attempted : ℚ)
    { levels_attempted := attempted
      levels_completed := completed
      success_rate := round3 success_rate
      total_time_seconds := round2 total_time
      avg_turns_per_level := round2 avg_turns
      avg_error_rate := round3 avg_error
      per_level := lms.map (fun lm =>
        ⟨lm.level_id, lm.name, lm.success, lm.turns_used, round2 lm.time_seconds,
         lm.error_rate, lm.hint_following_rate, lm.error_message⟩) }

/-- Winner decision of `EthernautEvaluator.run_eval` (evaluator.py lines 227-228):
`winner = "agent" if success_rate >= 0.5 else "evaluator"`, applied to the
`success_rate` field of the aggregate metrics. -/
def decideWinner (agg : AggregateMetrics) : String :=
  if (1 : ℚ)/2 ≤ agg.success_rate then "agent" else "evaluator"

/-! Sandbox protocol client, `js_sandbox.py`.  The Node subprocess and
`json.loads` are collaborators: a `ReadOutcome` describes what the time-bounded
read of one stdout line produced, and `decode` stands for `json.loads` on the
line that was read. -/

/-- Outcome of the time-bounded `readline` on the sandbox's stdout. -/
inductive ReadOutcome where
  | timeout
  | closed
  | line (s : String)
deriving DecidableEq, Repr

/-- The Python exceptions that `send_command`'s `try` block can raise. -/
inductive PyError where
  | timeoutError
  | jsonDecodeError (msg : String)
  | runtimeError (msg : String)
deriving DecidableEq, Repr

/-- Wire response of the sandbox protocol (`{success, result?, logs?, error?}`);
log lines are folded into the abstract `result`/`error` payloads. -/
structure SandboxResponse where
  success : Bool
  result : Option String
  error : Option String
deriving DecidableEq, Repr

/-- Body of the `try` block of `JSSandbox.send_command` (js_sandbox.py lines
89-119): write the command, read one line; a timeout raises
`asyncio.TimeoutError`, a zero-length read raises
`RuntimeError("Sandbox closed unexpectedly")`, a line that fails `json.loads`
raises `json.JSONDecodeError`. -/
def sendCommandTry (read : ReadOutcome) (decode : String → Except String SandboxResponse) :
    Except PyError SandboxResponse :=
  match read with
  | .timeout => .error .timeoutError
  | .closed => .error (.runtimeError "Sandbox closed unexpectedly")
  | .line s =>
    match decode s with
    | .ok r => .ok r
    | .error m => .error (.jsonDecodeError m)

/-- `JSSandbox.send_command` (js_sandbox.py lines 72-134).  The guard before the
`try` raises `RuntimeError("Sandbox process not running")` (uncaught, modelled
as `.error`).  The three handlers convert every exception raised inside the
`try` — including the `RuntimeError` from a zero-length read, which is caught
by the final `except Exception` — into a structured `{success: False, error}`
response.  `timeoutRepr` is the decimal rendering of the `timeout` argument. -/
def sendCommand (processRunning : Bool) (read : ReadOutcome)
    (decode : String → Except String SandboxResponse) (timeoutRepr : String) :
    Except String SandboxResponse :=
  if !processRunning then .error "Sandbox process not running"
  else
    match sendCommandTry read decode with
    | .ok r => .ok r
    | .error .timeoutError => .ok ⟨false, none, some ("Timeout after " ++ timeoutRepr ++ "s")⟩
    | .error (.jsonDecodeError m) => .ok ⟨false, none, some ("Invalid response: " ++ m)⟩
    | .error (.runtimeError m) => .ok ⟨false, none, some m⟩

/-! Process stop paths, `anvil_manager.py` / `js_sandbox.py`.  A `ProcFate`
enumerates how the terminate/wait sequence inside the `try` of `stop()` can go;
every branch, including a raising operation (caught by `except Exception`),
falls through to the `finally` block, so the fate never influences the
resulting state and `stop` never raises. -/

/-- Possible behaviors of the terminate → wait → kill sequence in `stop()`. -/
inductive ProcFate where
  | exitsGracefully
  | needsKill
  | opRaises (msg : String)
deriving DecidableEq, Repr

/-- Mutable state of `AnvilManager`: `process` is `some alive?` when a `Popen`
handle exists (whether or not the OS process is still alive), `none` otherwise. -/
structure AnvilState where
  process : Option Bool
  web3 : Option String
  accounts : List String
  ethernaut_address : Option String
  ethernaut_abi : Option String
deriving DecidableEq, Repr

/-- State of `AnvilManager` right after `__init__`. -/
def initAnvilState : AnvilState := ⟨none, none, [], none, none⟩

/-- The connection/account/address state of the manager is fully cleared. -/
def anvilCleared (s : AnvilState) : Prop :=
  s.process = none ∧ s.web3 = none ∧ s.accounts = [] ∧
    s.ethernaut_address = none ∧ s.ethernaut_abi = none

instance (s : AnvilState) : Decidable (anvilCleared s) := by
  unfold anvilCleared; infer_instance

/-- `AnvilManager.stop` (anvil_manager.py lines 284-318): early return when no
process handle exists; otherwise terminate/wait (any exception caught and
logged), then the `finally` block resets `process`, `web3`, `accounts`,
`ethernaut_address` and `ethernaut_abi`.  The function never raises, hence the
`.ok` result in every branch; the `fate` of the process operations is ignored
because the `finally` block runs regardless. -/
def anvilStop (_fate : ProcFate) (s : AnvilState) : Except String AnvilState :=
  match s.process with
  | none => .ok s
  | some _ => .ok ⟨none, none, [], none, none⟩

/-- Mutable state of `JSSandbox` (its only mutable field is the process handle;
`sandbox_dir` is set once in `__init__` and never written again). -/
structure JSSandboxState where
  process : Option Bool
deriving DecidableEq, Repr

/-- `JSSandbox.stop` (js_sandbox.py lines 161-196): early return when no process
handle exists; otherwise close stdin, terminate/wait/kill (any exception caught
and logged), and the `finally` block sets `process = None`.  Never raises. -/
def jsSandboxStop (_fate : ProcFate) (s : JSSandboxState) : Except String JSSandboxState :=
  match s.process with
  | none => .ok s
  | some _ => .ok ⟨none⟩

/-! Session loop and tool dispatcher, `evaluator.py`. -/

/-- The per-session mutable fields of `EthernautEvaluator` that the claims are
about: the current level (`_current_level_config` / `_current_level_contracts`),
the current instance handle (`_current_instance`), and the sandbox's bound
contract (last successful `set_contract`). -/
structure EvalCtx where
  current_level : Option ℕ
  current_instance : Option String
  sandbox_contract : Option String
deriving DecidableEq, Repr

/-- Fields as set by `EthernautEvaluator.__init__`. -/
def initEvalCtx : EvalCtx := ⟨none, none, none⟩

/-- Per-session reset performed by `_run_single_level` (evaluator.py lines
284-299): the tool provider conversation is reset, a fresh `MetricsTracker` is
created, `_current_level_config` is stored and the level factory deployed.
Nothing in this path writes `_current_instance` or rebinds the sandbox's
contract handle, so both survive from the previous session. -/
def startNewLevel (levelId : ℕ) (s : EvalCtx) : EvalCtx :=
  { s with current_level := some levelId }

/-- Per-session `MetricsTracker` state (fields used by the session loop). -/
structure Tracker where
  tool_calls : List ToolCallRecord
  level_completed : Bool
  turn_count : ℕ
deriving DecidableEq, Repr

/-- `MetricsTracker` right after `start()`. -/
def freshTracker : Tracker := ⟨[], false, 0⟩

/-- `MetricsTracker.record_tool_call`: appends one record. -/
def recordToolCall (t : Tracker) (name : Option String) (args : List (String × String))
    (success : Bool) (result : Option String) (error : Option String) : Tracker :=
  { t with tool_calls := t.tool_calls ++ [⟨name, args, success, result, error⟩] }

/-- External collaborators of the five tool handlers (chain RPC, sandbox,
compiler), abstracted per `_tool_get_new_instance`, `_tool_exec_console`,
`_tool_submit_instance`, `_tool_view_source`, `_tool_deploy_attack_contract`:
`new_instance_addr` is the event-extracted address of a fresh instance (or the
raised error), `set_contract_ok`/`set_contract_err` the sandbox `set_contract`
outcome, `submit_completed addr` tells whether submitting `addr` emitted a
`LevelCompletedLog` event, and `deploy_attack` returns the message string of
the deploy tool (which catches all of its own errors and never raises). -/
structure ExecEnv where
  new_instance_addr : Except String String
  set_contract_ok : String → Bool
  set_contract_err : String
  exec_console : String → Except String String
  submit_completed : String → Except String Bool
  view_source : Except String String
  deploy_attack : List (String × String) → String

/-- `EthernautEvaluator._execute_tool` (evaluator.py lines 615-654) together
with the observable effects of the five tool handlers (lines 656-1017): the
result is the reply string, the updated per-session context, and whether
`mark_completed()` was invoked (submit handler observing `LevelCompletedLog`).
Unknown names raise `ValueError(f"Unknown tool: {tool_name}")`. -/
def executeTool (env : ExecEnv) (ctx : EvalCtx) (tool_name : Option String)
    (args : List (String × String)) : Except String (String × EvalCtx × Bool) :=
  if tool_name = some "get_new_instance" then
    match env.new_instance_addr with
    | .error e => .error e
    | .ok addr =>
      if env.set_contract_ok addr then
        .ok ("Instance deployed at " ++ addr ++
               ".\nGlobal \x27contract\x27 variable updated. Try: await contract.info()",
             { ctx with current_instance := some addr, sandbox_contract := some addr }, false)
      else .error ("Failed to set contract in sandbox: " ++ env.set_contract_err)
  else if tool_name = some "exec_console" then
    let code := List.lookup "code" args
    if pyTruthy code = false then .error "exec_console requires \x27code\x27 argument"
    else
      match env.exec_console (code.getD "") with
      | .ok r => .ok (r, ctx, false)
      | .error e => .error e
  else if tool_name = some "submit_instance" then
    if pyTruthy ctx.current_instance = false then
      .error "No instance deployed. Call get_new_instance first."
    else
      match env.submit_completed (ctx.current_instance.getD "") with
      | .error e => .error e
      | .ok true => .ok ("Level completed! Congratulations!", ctx, true)
      | .ok false => .ok ("Level not completed. Keep trying!", ctx, false)
  else if tool_name = some "view_source" then
    match env.view_source with
    | .ok s => .ok (s, ctx, false)
    | .error e => .error e
  else if tool_name = some "deploy_attack_contract" then
    if pyTruthy (List.lookup "source_code" args) = false ∨
        pyTruthy (List.lookup "contract_name" args) = false then
      .error "deploy_attack_contract requires \x27source_code\x27 and \x27contract_name\x27 arguments"
    else .ok (env.deploy_attack args, ctx, false)
  else
    .error ("Unknown tool: " ++ pyStr tool_name)

/-- Capture of `re.search(r'OPEN\s*(.*?)\s*CLOSE', s, re.DOTALL)` for literal
delimiter strings: the text between the leftmost occurrence of the opening
delimiter and the nearest following occurrence of the closing delimiter,
stripped of surrounding whitespace (the greedy `\s*` around the lazy group). -/
def extractBetween (openTag closeTag s : String) : Option String :=
  match afterFirst openTag.data s.data with
  | none => none
  | some tail =>
    match beforeFirst closeTag.data tail with
    | none => none
    | some inner => some (String.mk (trimChars inner))

/-- Python falsiness applied to an extraction result: the source guards each
fallback with `if not json_string`, so a stage that captured the empty string
falls through to the next stage exactly like a stage that did not match. -/
def pyFalsyOpt : Option String → Option String
  | some "" => none
  | o => o

/-- The three-stage JSON-string selection of `_process_agent_response`
(evaluator.py lines 544-561): `<json>...</json>` tags first, then a fenced
```` ```json ```` code block, then the whole response. -/
def selectJsonString (response : String) : String :=
  match pyFalsyOpt (extractBetween "<json>" "</json>" response) with
  | some s => s
  | none =>
    match pyFalsyOpt (extractBetween "```json" "```" response) with
    | some s => s
    | none => response

/-- The structured `{name, arguments}` object read off a JSON object:
`name = action.get("name")`, `arguments = action.get("arguments", {})`. -/
structure AgentAction where
  name : Option String
  arguments : List (String × String)
deriving DecidableEq, Repr

/-- A successful `json.loads` result: either a JSON object (a Python dict, on
which the two `action.get` reads succeed) or any other JSON value — string,
number, list, boolean, null — carried with its Python type name.  The
`action.get` calls sit at evaluator.py lines 593-594, outside both `try`
blocks, so a non-object value makes them raise an uncaught `AttributeError`. -/
inductive PyJson where
  | obj (action : AgentAction)
  | nonObject (typeName : String)
deriving DecidableEq, Repr

/-- Rendering of the uncaught exception raised by `action.get("name")` on a
non-dict value (e.g. `AttributeError: 'bool' object has no attribute 'get'`). -/
def attributeErrorMsg (typeName : String) : String :=
  "AttributeError: \x27" ++ typeName ++ "\x27 object has no attribute \x27get\x27"

/-- The parse-failure reply built by `_process_agent_response`
(evaluator.py lines 568-575). -/
def parseErrorMessage (e : String) (response : String) : String :=
  "Error: Could not parse tool call from response. Invalid JSON syntax.\n\n" ++
  "JSON parse error: " ++ e ++ "\n\n" ++
  "Your response (first 500 chars):\n" ++ strTake 500 response ++ "\n\n" ++
  "Please use valid JSON in <json>...</json> format:\n" ++
  "<json>\n\x7b\"name\": \"tool_name\", \"arguments\": \x7b...\x7d\x7d\n</json>"

/-- Result of one turn of `_process_agent_response`: the reply sent back to the
participant, the updated per-session context, and the updated tracker. -/
structure StepResult where
  reply : String
  ctx : EvalCtx
  tracker : Tracker
deriving DecidableEq, Repr

/-- `EthernautEvaluator._process_agent_response` (evaluator.py lines 534-613):
select a JSON string via the three-stage chain and parse it (`jsonLoads` stands
for `json.loads`).  A `json.JSONDecodeError` is caught: a synthetic failed
`json_parse` tool call is recorded and the parse-error message returned.  A
value that parses but is not a JSON object reaches the `action.get` reads at
lines 593-594, outside both `try` blocks: the resulting `AttributeError` is
uncaught and propagates out of the turn (`Except.error`).  For an object, the
tool is dispatched, the call recorded (success or failure) with its arguments
and the reply as result, and the reply returned. -/
def processAgentResponse (env : ExecEnv) (jsonLoads : String → Except String PyJson)
    (ctx : EvalCtx) (tracker : Tracker) (response : String) : Except String StepResult :=
  let json_string := selectJsonString response
  match jsonLoads json_string with
  | .error e =>
    .ok ⟨parseErrorMessage e response, ctx,
      recordToolCall tracker (some "json_parse") [("response_excerpt", strTake 500 response)]
        false none (some e)⟩
  | .ok (.nonObject typeName) => .error (attributeErrorMsg typeName)
  | .ok (.obj action) =>
    match executeTool env ctx action.name action.arguments with
    | .ok (result, ctx2, completedNow) =>
      let tracker1 := if completedNow then { tracker with level_completed := true } else tracker
      .ok ⟨result, ctx2,
        recordToolCall tracker1 action.name action.arguments true (some result) none⟩
    | .error e =>
      .ok ⟨"Error: " ++ e, ctx,
        recordToolCall tracker action.name action.arguments false (some ("Error: " ++ e)) none⟩

/-- Result of the session loop: the local `turn_count` of `_run_a2a_loop`, the
final per-session context and the final tracker. -/
structure LoopResult where
  turn_count : ℕ
  ctx : EvalCtx
  tracker : Tracker
deriving DecidableEq, Repr

/-- The `while` loop of `_run_a2a_loop` (evaluator.py lines 470-496), written
with the explicit fuel `max_turns - turn_count` so that the recursion is
structural: the loop body runs exactly while `turn_count < max_turns and not
tracker.level_completed`, increments the turn counter, processes the response,
breaks when the level was completed during the turn, and otherwise feeds the
tool result back to the participant (`talk n` is the participant's reply
following turn `n`; `talk 0` is the reply to the initial prompt).
`_run_a2a_loop` has no exception handler, so an uncaught exception raised
while processing a turn (the `AttributeError` of `processAgentResponse`)
propagates out of the loop to `_run_single_level` — modelled by threading the
`Except.error` through. -/
def runA2ALoopAux (env : ExecEnv) (jsonLoads : String → Except String PyJson)
    (talk : ℕ → String) :
    (fuel : ℕ) → (turn_count : ℕ) → EvalCtx → Tracker → String → Except String LoopResult
  | 0, tc, ctx, tr, _ => .ok ⟨tc, ctx, tr⟩
  | fuel + 1, tc, ctx, tr, response =>
    if tr.level_completed then .ok ⟨tc, ctx, tr⟩
    else
      let tc1 := tc + 1
      let tr1 := { tr with turn_count := tr.turn_count + 1 }
      match processAgentResponse env jsonLoads ctx tr1 response with
      | .error e => .error e
      | .ok step =>
        if step.tracker.level_completed then .ok ⟨tc1, step.ctx, step.tracker⟩
        else runA2ALoopAux env jsonLoads talk fuel tc1 step.ctx step.tracker (talk tc1)

/-- `EthernautEvaluator._run_a2a_loop` for one session, started on a fresh
tracker with `turn_count = 0` and the participant's reply to the initial
prompt. -/
def runA2ALoop (env : ExecEnv) (jsonLoads : String → Except String PyJson)
    (talk : ℕ → String) (max_turns : ℕ) (ctx : EvalCtx) : Except String LoopResult :=
  runA2ALoopAux env jsonLoads talk max_turns 0 ctx freshTracker (talk 0)

/-! Concrete inputs used by counterexamples and witnesses. -/

/-- A successful `exec_console` record holding the given code. -/
def okExec (code : String) : ToolCallRecord :=
  ⟨some "exec_console", [("code", code)], true, none, none⟩

/-- Three successful script executions mentioning `.b(`, `.c(`, `.d(`. -/
def c3baseRecords : List ToolCallRecord := [okExec ".b(", okExec ".c(", okExec ".d("]

/-- Two further script executions (mentioning `.b(` again and `.d(`). -/
def c3extRecords : List ToolCallRecord := [okExec ".b(", okExec ".d("]

/-- Three recorded events, exactly one of them failed. -/
def c4records : List ToolCallRecord :=
  [⟨some "exec_console", [("code", "await contract.owner()")], false, none, some "boom"⟩,
   ⟨some "exec_console", [], true, none, none⟩,
   ⟨some "exec_console", [], true, none, none⟩]

/-- Session history whose first observations of expected methods are `c` then `a`. -/
def c5reversedRecords : List ToolCallRecord := [okExec ".c(", okExec ".a("]

/-- Session history whose first observations are `a`, `b`, `c` in that order. -/
def c5orderedRecords : List ToolCallRecord := [okExec ".a(", okExec ".b(", okExec ".c("]

/-- A benign collaborator environment: instance deployment yields `0xAAAA`,
`set_contract` succeeds, submission finds no completion event. -/
def stubEnv : ExecEnv :=
  { new_instance_addr := .ok "0xAAAA"
  , set_contract_ok := fun _ => true
  , set_contract_err := ""
  , exec_console := fun _ => .ok "Result: "
  , submit_completed := fun _ => .ok false
  , view_source := .ok ""
  , deploy_attack := fun _ => "" }

/-- The second session's chain: submitting reports a `LevelCompletedLog` event
exactly when the submitted address is the first session's instance `0xAAAA`,
making the submitted address observable. -/
def c1EnvSession2 : ExecEnv :=
  { stubEnv with submit_completed := fun addr => .ok (addr == "0xAAAA") }

/-- Evaluator state after session 1 deployed its instance at `0xAAAA`. -/
def c1CtxAfterSession1 : EvalCtx := ⟨some 1, some "0xAAAA", some "0xAAAA"⟩

/-- A decode collaborator whose parse always fails. -/
def c2DecodeFail : String → Except String SandboxResponse := fun _ => .error "Expecting value"

/-- A `json.loads` collaborator that rejects every reply. -/
def jlFail : String → Except String PyJson := fun _ => .error "Expecting value"

/-- A `json.loads` collaborator producing a call to an unregistered tool. -/
def jlFrob : String → Except String PyJson := fun _ => .ok (.obj ⟨some "frobnicate", []⟩)

/-- A `json.loads` collaborator for the reply `"true"`: valid JSON, but a
Python `bool`, not an object. -/
def jlNonObject : String → Except String PyJson := fun _ => .ok (.nonObject "bool")

/-- The five tool names registered by `_register_tools` (evaluator.py lines
332-439), as the dispatcher sees them. -/
def knownToolNames : List (Option String) :=
  [some "get_new_instance", some "exec_console", some "submit_instance",
   some "view_source", some "deploy_attack_contract"]

/-! Helper lemmas. -/

/-- A fold whose step only appends to the accumulator produces an extension of
the initial accumulator. -/
theorem foldl_extends {β : Type} (f : List String → β → List String)
    (h : ∀ acc b, ∃ t, f acc b = acc ++ t) :
    ∀ (l : List β) (acc : List String), ∃ t, l.foldl f acc = acc ++ t := by
  intro l
  induction l with
  | nil => intro acc; exact ⟨[], (List.append_nil _).symm⟩
  | cons b l ih =>
    intro acc
    obtain ⟨t₁, h₁⟩ := h acc b
    obtain ⟨t₂, h₂⟩ := ih (f acc b)
    exact ⟨t₁ ++ t₂, by rw [List.foldl_cons, h₂, h₁, List.append_assoc]⟩

/-- Recording one more method mention only appends. -/
theorem noteMethod_extends (cond : Bool) (order : List String) (m : String) :
    ∃ t, noteMethod cond order m = order ++ t := by
  unfold noteMethod
  split
  · exact ⟨[m], rfl⟩
  · exact ⟨[], (List.append_nil _).symm⟩

/-- Scanning one more record only appends to the first-observation order. -/
theorem scanRecord_extends (expected : List String) (order : List String) (r : ToolCallRecord) :
    ∃ t, scanRecord expected order r = order ++ t := by
  unfold scanRecord
  split
  · obtain ⟨t₁, h₁⟩ := foldl_extends _ (fun acc m => noteMethod_extends _ acc m) expected order
    cases hr : r.result with
    | none => simpa [hr] using ⟨t₁, h₁⟩
    | some res =>
      by_cases hres : res ≠ ""
      · obtain ⟨t₂, h₂⟩ :=
          foldl_extends _ (fun acc m => noteMethod_extends _ acc m) expected
            (expected.foldl (fun acc m =>
              noteMethod (pyInStr ("." ++ m) ((List.lookup "code" r.args).getD "")
                || pyInStr ("." ++ m ++ "(") ((List.lookup "code" r.args).getD "")) acc m) order)
        refine ⟨t₁ ++ t₂, ?_⟩
        simp only [hr, if_pos hres]
        rw [h₂, h₁, List.append_assoc]
      · push_neg at hres
        simp only [hr, hres]
        simpa using ⟨t₁, h₁⟩
  · exact ⟨[], (List.append_nil _).symm⟩

/-- Appending events to the history extends the first-observation order. -/
theorem methodsCallOrder_append (expected : List String) (es ext : List ToolCallRecord) :
    ∃ t, methodsCallOrder expected (es ++ ext) = methodsCallOrder expected es ++ t := by
  unfold methodsCallOrder
  rw [List.foldl_append]
  exact foldl_extends _ (fun acc r => scanRecord_extends expected acc r) ext _

/-- Rounding to three decimals is monotone. -/
theorem round3_mono {a b : ℚ} (h : a ≤ b) : round3 a ≤ round3 b := by
  unfold round3
  have hr : round (a * 1000) ≤ round (b * 1000) := by
    rw [round_eq, round_eq]
    exact Int.floor_le_floor (by linarith)
  exact (div_le_div_iff_of_pos_right (by norm_num)).mpr (by exact_mod_cast hr)

/-- Rounding to three decimals moves a rational by at most `1/2000`. -/
theorem abs_round3_sub_le (q : ℚ) : |round3 q - q| ≤ 1/2000 := by
  unfold round3
  have h := abs_sub_round (q * 1000)
  have h2 : ((round (q * 1000) : ℚ)) / 1000 - q = ((round (q * 1000) : ℚ) - q * 1000) / 1000 := by
    ring
  rw [h2, abs_div, abs_of_pos (by norm_num : (0:ℚ) < 1000)]
  rw [abs_sub_comm] at h
  linarith

/-- Reported hint-following rate, for a non-empty expected list. -/
theorem explorationQuality_rate {expected : List String} (records : List ToolCallRecord)
    (hne : expected ≠ []) :
    (calculateExplorationQuality expected records).hint_following_rate =
      round3 (((methodsCallOrder expected records).length : ℚ) / (expected.length : ℚ)) := by
  simp only [calculateExplorationQuality, if_neg hne]

/-- Reported order flag, for a non-empty expected list. -/
theorem explorationQuality_flag {expected : List String} (records : List ToolCallRecord)
    (hne : expected ≠ []) :
    (calculateExplorationQuality expected records).followed_correct_order =
      followedCorrectOrder expected (methodsCallOrder expected records) := by
  simp only [calculateExplorationQuality, if_neg hne]

/-- Reported score, for a non-empty expected list. -/
theorem explorationQuality_score {expected : List String} (records : List ToolCallRecord)
    (hne : expected ≠ []) :
    (calculateExplorationQuality expected records).score =
      round3 ((((methodsCallOrder expected records).length : ℚ) / (expected.length : ℚ)) *
        (if followedCorrectOrder expected (methodsCallOrder expected records) then 6/5
         else 4/5)) := by
  simp only [calculateExplorationQuality, if_neg hne]

/-- Behavior of one turn on an unparsable reply: the `JSONDecodeError` is
caught and converted into the recorded failure and the format-error reply. -/
theorem processAgentResponse_parse_fail (env : ExecEnv)
    (jsonLoads : String → Except String PyJson) (ctx : EvalCtx) (tr : Tracker) (resp m : String)
    (hm : jsonLoads (selectJsonString resp) = Except.error m) :
    processAgentResponse env jsonLoads ctx tr resp =
      .ok ⟨parseErrorMessage m resp, ctx,
        recordToolCall tr (some "json_parse") [("response_excerpt", strTake 500 resp)]
          false none (some m)⟩ := by
  simp [processAgentResponse, hm]

/-- A turn whose reply never parses to a non-object JSON value does not raise:
parse failures and tool failures are both converted into replies. -/
theorem processAgentResponse_ok (env : ExecEnv) (jsonLoads : String → Except String PyJson)
    (ctx : EvalCtx) (tr : Tracker) (resp : String)
    (hobj : ∀ s ty, jsonLoads s ≠ Except.ok (PyJson.nonObject ty)) :
    ∃ step, processAgentResponse env jsonLoads ctx tr resp = .ok step := by
  cases h : jsonLoads (selectJsonString resp) with
  | error e => exact ⟨_, processAgentResponse_parse_fail env jsonLoads ctx tr resp e h⟩
  | ok a =>
    cases a with
    | nonObject ty => exact absurd h (hobj _ ty)
    | obj action =>
      cases hex : executeTool env ctx action.name action.arguments with
      | ok v =>
        obtain ⟨result, ctx2, comp⟩ := v
        refine ⟨⟨result, ctx2,
          recordToolCall (if comp then { tr with level_completed := true } else tr)
            action.name action.arguments true (some result) none⟩, ?_⟩
        simp [processAgentResponse, h, hex]
      | error e =>
        refine ⟨⟨"Error: " ++ e, ctx,
          recordToolCall tr action.name action.arguments false (some ("Error: " ++ e)) none⟩, ?_⟩
        simp [processAgentResponse, h, hex]

/-- Invariant of the session loop on crash-free parse collaborators: the loop
returns normally, the final turn count stays within the fuel, and on exit the
level is completed or the fuel is exhausted. -/
theorem runA2ALoopAux_bounds (env : ExecEnv) (jsonLoads : String → Except String PyJson)
    (talk : ℕ → String) (hobj : ∀ s ty, jsonLoads s ≠ Except.ok (PyJson.nonObject ty)) :
    ∀ (fuel tc : ℕ) (ctx : EvalCtx) (tr : Tracker) (resp : String),
      ∃ r, runA2ALoopAux env jsonLoads talk fuel tc ctx tr resp = .ok r ∧
        r.turn_count ≤ tc + fuel ∧
        (r.tracker.level_completed = true ∨ r.turn_count = tc + fuel) := by
  intro fuel
  induction fuel with
  | zero => intro tc ctx tr resp; exact ⟨⟨tc, ctx, tr⟩, rfl, Nat.le_refl tc, Or.inr rfl⟩
  | succ n ih =>
    intro tc ctx tr resp
    by_cases htr : tr.level_completed = true
    · exact ⟨⟨tc, ctx, tr⟩, by simp [runA2ALoopAux, htr],
        Nat.le_add_right tc (n + 1), Or.inl htr⟩
    · obtain ⟨step, hstep⟩ := processAgentResponse_ok env jsonLoads ctx
        { tr with turn_count := tr.turn_count + 1 } resp hobj
      by_cases hc : step.tracker.level_completed = true
      · refine ⟨⟨tc + 1, step.ctx, step.tracker⟩, ?_,
          Nat.add_le_add_left (by omega) tc, Or.inl hc⟩
        simp only [runA2ALoopAux]
        rw [if_neg htr]
        simp only [hstep]
        rw [if_pos hc]
      · obtain ⟨r, hr, h1, h2⟩ := ih (tc + 1) step.ctx step.tracker (talk (tc + 1))
        refine ⟨r, ?_, by omega, ?_⟩
        · simp only [runA2ALoopAux]
          rw [if_neg htr]
          simp only [hstep]
          rw [if_neg hc]
          exact hr
        · rcases h2 with h | h
          · exact Or.inl h
          · exact Or.inr (by omega)

/-- When every reply fails to parse, the loop returns normally and consumes
its whole fuel without completing. -/
theorem runA2ALoopAux_parse_fail (env : ExecEnv) (jsonLoads : String → Except String PyJson)
    (talk : ℕ → String) (h : ∀ s, ∃ m, jsonLoads s = Except.error m) :
    ∀ (fuel tc : ℕ) (ctx : EvalCtx) (tr : Tracker) (resp : String),
      tr.level_completed = false →
      ∃ r, runA2ALoopAux env jsonLoads talk fuel tc ctx tr resp = .ok r ∧
        r.turn_count = tc + fuel ∧ r.tracker.level_completed = false := by
  intro fuel
  induction fuel with
  | zero => intro tc ctx tr resp htr; exact ⟨⟨tc, ctx, tr⟩, rfl, rfl, htr⟩
  | succ n ih =>
    intro tc ctx tr resp htr
    obtain ⟨m, hm⟩ := h (selectJsonString resp)
    have hstep := processAgentResponse_parse_fail env jsonLoads ctx
      { tr with turn_count := tr.turn_count + 1 } resp m hm
    obtain ⟨r, hr, h1, h2⟩ := ih (tc + 1) ctx
      (recordToolCall { tr with turn_count := tr.turn_count + 1 } (some "json_parse")
        [("response_excerpt", strTake 500 resp)] false none (some m))
      (talk (tc + 1)) (by simp [recordToolCall, htr])
    refine ⟨r, ?_, by omega, h2⟩
    simp only [runA2ALoopAux]
    rw [if_neg (by simp [htr]), hstep]
    simp only [recordToolCall]
    rw [if_neg (by simp [htr])]
    exact hr

/-! Claim theorems. -/

/-- Claim C1 (code bug): the per-session reset of `_run_single_level` does not
discard the previous session's instance handle or the sandbox's bound contract.
Failing run: session 1 deploys its instance at `0xAAAA`; session 2 starts (the
reset leaves `current_instance` and the sandbox binding at `0xAAAA`), and its
very first `submit_instance` — before any `get_new_instance` — passes the
"No instance deployed" guard and submits the stale address `0xAAAA` of session
1 (observable here because the chain collaborator reports completion exactly
for that address), contradicting the claim that no stale handle from an
earlier session is observable in the later one. -/
theorem c1_stale_instance_across_sessions :
    (executeTool stubEnv (startNewLevel 1 initEvalCtx) (some "get_new_instance") []).map
        (fun r => r.2.1) = .ok c1CtxAfterSession1 ∧
    (startNewLevel 2 c1CtxAfterSession1).current_instance = some "0xAAAA" ∧
    (startNewLevel 2 c1CtxAfterSession1).sandbox_contract = some "0xAAAA" ∧
    executeTool c1EnvSession2 (startNewLevel 2 c1CtxAfterSession1) (some "submit_instance") [] =
      .ok ("Level completed! Congratulations!", startNewLevel 2 c1CtxAfterSession1, true) := by
  exact ⟨rfl, rfl, rfl, rfl⟩

/-- Claim C2, counterexample: a closed/zero-length read of the sandbox's stdout
does not raise to the caller — the `RuntimeError` raised inside the `try` is
caught by the final `except Exception` handler and `send_command` returns a
structured failure `{success: False, error: "Sandbox closed unexpectedly"}`. -/
theorem c2_closed_read_counterexample :
    sendCommand true .closed c2DecodeFail "10.0" =
      .ok ⟨false, none, some "Sandbox closed unexpectedly"⟩ := rfl

/-- Claim C2 as amended: for every command, a read timeout returns a structured
failure with `success = false` and a timeout error description; a
malformed-JSON response line returns a structured failure describing the parse
error; and a closed/zero-length read likewise returns a structured failure
(error "Sandbox closed unexpectedly") rather than raising to the caller. -/
theorem c2_send_command_structured_failures (decode : String → Except String SandboxResponse)
    (t s m : String) (h : decode s = .error m) :
    sendCommand true .timeout decode t =
      .ok ⟨false, none, some ("Timeout after " ++ t ++ "s")⟩ ∧
    sendCommand true (.line s) decode t =
      .ok ⟨false, none, some ("Invalid response: " ++ m)⟩ ∧
    sendCommand true .closed decode t =
      .ok ⟨false, none, some "Sandbox closed unexpectedly"⟩ := by
  refine ⟨rfl, ?_, rfl⟩
  simp [sendCommand, sendCommandTry, h]

/-- Witness for C2 at a concrete decode collaborator, timeout `10.0` and an
unparsable response line. -/
theorem c2_send_command_structured_failures_witness :
    sendCommand true .timeout c2DecodeFail "10.0" =
      .ok ⟨false, none, some ("Timeout after " ++ "10.0" ++ "s")⟩ ∧
    sendCommand true (.line "oops") c2DecodeFail "10.0" =
      .ok ⟨false, none, some ("Invalid response: " ++ "Expecting value")⟩ ∧
    sendCommand true .closed c2DecodeFail "10.0" =
      .ok ⟨false, none, some "Sandbox closed unexpectedly"⟩ :=
  c2_send_command_structured_failures c2DecodeFail "10.0" "oops" "Expecting value" rfl

/-- Claim C3, counterexample: with expected methods `[a, b, c, d]` and a history
whose first observations are `b, c, d` (in order, score `round3(3/4 × 1.2) =
0.9`), appending one successful script execution that adds the one further
distinct mention `a` — leaving the order of the previously first-observed
methods unchanged — flips the order factor and the score drops to
`round3(1 × 0.8) = 0.8`: the hint-following score is not monotone. -/
theorem c3_score_decrease_counterexample :
    (calculateExplorationQuality ["a","b","c","d"] (c3baseRecords ++ [okExec ".a("])).score <
      (calculateExplorationQuality ["a","b","c","d"] c3baseRecords).score := by
  have h4 : (["a","b","c","d"] : List String) ≠ [] := by decide
  have hbase : methodsCallOrder ["a","b","c","d"] c3baseRecords = ["b","c","d"] := by decide
  have hext : methodsCallOrder ["a","b","c","d"] (c3baseRecords ++ [okExec ".a("])
      = ["b","c","d","a"] := by decide
  have hf1 : followedCorrectOrder ["a","b","c","d"] ["b","c","d"] = true := by decide
  have hf2 : followedCorrectOrder ["a","b","c","d"] ["b","c","d","a"] = false := by decide
  rw [explorationQuality_score _ h4, explorationQuality_score _ h4, hbase, hext, hf1, hf2]
  norm_num [round3, round_eq]

/-- Claim C3 as amended: extending the event history (in particular by successful
script executions adding further distinct expected-method mentions, holding the
order of the previously first-observed methods fixed) never decreases the
hint-following rate; the returned score never decreases provided the extension
leaves the `followed_correct_order` factor unchanged — when the added mention
breaks the order, the factor flips from 1.2 to 0.8 and the score may drop. -/
theorem c3_hint_monotonicity_amended (expected : List String) (es ext : List ToolCallRecord) :
    (calculateExplorationQuality expected es).hint_following_rate ≤
      (calculateExplorationQuality expected (es ++ ext)).hint_following_rate ∧
    ((calculateExplorationQuality expected (es ++ ext)).followed_correct_order =
        (calculateExplorationQuality expected es).followed_correct_order →
      (calculateExplorationQuality expected es).score ≤
        (calculateExplorationQuality expected (es ++ ext)).score) := by
  by_cases hne : expected = []
  · subst hne; simp [calculateExplorationQuality]
  · obtain ⟨t, ht⟩ := methodsCallOrder_append expected es ext
    rw [explorationQuality_rate _ hne, explorationQuality_rate _ hne,
      explorationQuality_flag _ hne, explorationQuality_flag _ hne,
      explorationQuality_score _ hne, explorationQuality_score _ hne, ht]
    have hlen : ((methodsCallOrder expected es).length : ℚ) ≤
        ((methodsCallOrder expected es ++ t).length : ℚ) := by
      simp [List.length_append]
    have hn : (0:ℚ) < (expected.length : ℚ) := by
      have : expected.length ≠ 0 := fun h => hne (List.length_eq_zero.mp h)
      positivity
    have hrate : ((methodsCallOrder expected es).length : ℚ) / (expected.length : ℚ) ≤
        ((methodsCallOrder expected es ++ t).length : ℚ) / (expected.length : ℚ) :=
      (div_le_div_iff_of_pos_right hn).mpr hlen
    refine ⟨round3_mono hrate, fun hflag => ?_⟩
    rw [hflag]
    apply round3_mono
    apply mul_le_mul_of_nonneg_right hrate
    split_ifs <;> norm_num

/-- Witness for C3 at expected methods `[a, b, c, d]`: one `.b(` mention
extended by `.b(` and `.d(` (order factor unchanged). -/
theorem c3_hint_monotonicity_amended_witness :
    ((calculateExplorationQuality ["a","b","c","d"] [okExec ".b("]).hint_following_rate ≤
      (calculateExplorationQuality ["a","b","c","d"]
        ([okExec ".b("] ++ c3extRecords)).hint_following_rate) ∧
    ((calculateExplorationQuality ["a","b","c","d"] [okExec ".b("]).score ≤
      (calculateExplorationQuality ["a","b","c","d"] ([okExec ".b("] ++ c3extRecords)).score) :=
  ⟨(c3_hint_monotonicity_amended ["a","b","c","d"] [okExec ".b("] c3extRecords).1,
   (c3_hint_monotonicity_amended ["a","b","c","d"] [okExec ".b("] c3extRecords).2 (by decide)⟩

/-- Claim C4, counterexample: for a history of 3 events with 1 failure the
reported error rate is `round(1/3, 3) = 333/1000`, which is not exactly
`failed_events / total_events = 1/3`. -/
theorem c4_error_rate_rounding_counterexample :
    calculateErrorRate c4records = 333/1000 ∧
    calculateErrorRate c4records ≠
      ((c4records.filter (fun tc => !tc.success)).length : ℚ) / (c4records.length : ℚ) := by
  norm_num [calculateErrorRate, c4records, round3, round_eq]

/-- Claim C4 as amended: the error rate is `0.0` for an empty history (no
division error), and otherwise equals `failed_events / total_events` rounded to
three decimals — hence within `1/2000` of the exact ratio. -/
theorem c4_error_rate_amended (records : List ToolCallRecord) (hne : records ≠ []) :
    calculateErrorRate [] = 0 ∧
    calculateErrorRate records =
      round3 (((records.filter (fun tc => !tc.success)).length : ℚ) / (records.length : ℚ)) ∧
    |calculateErrorRate records -
        ((records.filter (fun tc => !tc.success)).length : ℚ) / (records.length : ℚ)| ≤ 1/2000 := by
  have hlen : records.length ≠ 0 := fun h => hne (List.length_eq_zero.mp h)
  refine ⟨by norm_num [calculateErrorRate], by rw [calculateErrorRate, if_neg hlen], ?_⟩
  rw [calculateErrorRate, if_neg hlen]
  exact abs_round3_sub_le _

/-- Witness for C4 at the 3-event/1-failure history. -/
theorem c4_error_rate_amended_witness :
    calculateErrorRate [] = 0 ∧
    calculateErrorRate c4records =
      round3 (((c4records.filter (fun tc => !tc.success)).length : ℚ) / (c4records.length : ℚ)) ∧
    |calculateErrorRate c4records -
        ((c4records.filter (fun tc => !tc.success)).length : ℚ) / (c4records.length : ℚ)| ≤
      1/2000 :=
  c4_error_rate_amended c4records (by decide)

/-- Claim C5, counterexample: with expected methods `[a, b, c]` and first
observations `[c, a]`, the computation returns `followed_correct_order = false`
as claimed, but the returned score is `round((2/3) × 0.8, 3) = 533/1000`, which
equals neither the exact `rate × 0.8 = 8/15` nor the reported (rounded) rate
times `0.8`. -/
theorem c5_order_bonus_counterexample :
    methodsCallOrder ["a","b","c"] c5reversedRecords = ["c","a"] ∧
    (calculateExplorationQuality ["a","b","c"] c5reversedRecords).followed_correct_order
      = false ∧
    (calculateExplorationQuality ["a","b","c"] c5reversedRecords).score = 533/1000 ∧
    (calculateExplorationQuality ["a","b","c"] c5reversedRecords).score ≠
      (calculateExplorationQuality ["a","b","c"] c5reversedRecords).hint_following_rate * (4/5) ∧
    (calculateExplorationQuality ["a","b","c"] c5reversedRecords).score ≠ ((2:ℚ)/3) * (4/5) := by
  have h : methodsCallOrder ["a","b","c"] c5reversedRecords = ["c","a"] := by decide
  have h3 : (["a","b","c"] : List String) ≠ [] := by decide
  have hflag : followedCorrectOrder ["a","b","c"] ["c","a"] = false := by decide
  refine ⟨h, ?_, ?_, ?_, ?_⟩
  · rw [explorationQuality_flag _ h3, h, hflag]
  · rw [explorationQuality_score _ h3, h, hflag]
    norm_num [round3, round_eq]
  · rw [explorationQuality_score _ h3, explorationQuality_rate _ h3, h, hflag]
    norm_num [round3, round_eq]
  · rw [explorationQuality_score _ h3, h, hflag]
    norm_num [round3, round_eq]

/-- Claim C5 as amended: for expected methods `[a, b, c]`, a session whose first
observations occur exactly in the order `a, b, c` yields
`followed_correct_order = true` and score = rate × 1.2 (here the equality is
exact since the rate is 1); a session whose first observations are `c, a`
yields `followed_correct_order = false` and score = the rate `2/3` times 0.8,
rounded to three decimals. -/
theorem c5_order_bonus_amended (records : List ToolCallRecord) :
    (methodsCallOrder ["a","b","c"] records = ["a","b","c"] →
      (calculateExplorationQuality ["a","b","c"] records).followed_correct_order = true ∧
      (calculateExplorationQuality ["a","b","c"] records).score =
        (calculateExplorationQuality ["a","b","c"] records).hint_following_rate * (6/5)) ∧
    (methodsCallOrder ["a","b","c"] records = ["c","a"] →
      (calculateExplorationQuality ["a","b","c"] records).followed_correct_order = false ∧
      (calculateExplorationQuality ["a","b","c"] records).score =
        round3 (((2:ℚ)/3) * (4/5))) := by
  have h3 : (["a","b","c"] : List String) ≠ [] := by decide
  constructor
  · intro h
    have hflag : followedCorrectOrder ["a","b","c"] ["a","b","c"] = true := by decide
    refine ⟨by rw [explorationQuality_flag _ h3, h, hflag], ?_⟩
    rw [explorationQuality_score _ h3, explorationQuality_rate _ h3, h, hflag]
    norm_num [round3, round_eq]
  · intro h
    have hflag : followedCorrectOrder ["a","b","c"] ["c","a"] = false := by decide
    refine ⟨by rw [explorationQuality_flag _ h3, h, hflag], ?_⟩
    rw [explorationQuality_score _ h3, h, hflag]
    norm_num [round3, round_eq]

/-- Witness for C5 at the in-order history `a, b, c` and the reversed history
`c, a`. -/
theorem c5_order_bonus_amended_witness :
    ((calculateExplorationQuality ["a","b","c"] c5orderedRecords).followed_correct_order = true ∧
      (calculateExplorationQuality ["a","b","c"] c5orderedRecords).score =
        (calculateExplorationQuality ["a","b","c"] c5orderedRecords).hint_following_rate *
          (6/5)) ∧
    ((calculateExplorationQuality ["a","b","c"] c5reversedRecords).followed_correct_order
        = false ∧
      (calculateExplorationQuality ["a","b","c"] c5reversedRecords).score =
        round3 (((2:ℚ)/3) * (4/5))) :=
  ⟨(c5_order_bonus_amended c5orderedRecords).1 (by decide),
   (c5_order_bonus_amended c5reversedRecords).2 (by decide)⟩

/-- Claim C6: the tool-call extraction tries the three stages in order with the
first stage that captures content winning — `<json>` tags first, then a fenced
`json` code block, then the whole reply (a stage whose capture is empty is
falsy in the source's `if not json_string` guards and falls through like a
non-match); and whenever the selected text fails to parse as JSON, the turn is
recorded as a failed synthetic `json_parse` tool call, the parse-error message
(describing the expected format) becomes the reply sent back as the next
turn's input, and the turn returns normally with the completion flag of the
recorded tracker untouched, so the session continues. -/
theorem c6_three_stage_extraction (env : ExecEnv)
    (jsonLoads : String → Except String PyJson)
    (ctx : EvalCtx) (tracker : Tracker) (response s e : String) :
    (pyFalsyOpt (extractBetween "<json>" "</json>" response) = some s →
      selectJsonString response = s) ∧
    (pyFalsyOpt (extractBetween "<json>" "</json>" response) = none →
      pyFalsyOpt (extractBetween "```json" "```" response) = some s →
      selectJsonString response = s) ∧
    (pyFalsyOpt (extractBetween "<json>" "</json>" response) = none →
      pyFalsyOpt (extractBetween "```json" "```" response) = none →
      selectJsonString response = response) ∧
    (jsonLoads (selectJsonString response) = .error e →
      processAgentResponse env jsonLoads ctx tracker response =
        .ok ⟨parseErrorMessage e response, ctx,
          recordToolCall tracker (some "json_parse")
            [("response_excerpt", strTake 500 response)] false none (some e)⟩ ∧
      (recordToolCall tracker (some "json_parse") [("response_excerpt", strTake 500 response)]
          false none (some e)).level_completed = tracker.level_completed) := by
  refine ⟨?_, ?_, ?_, ?_⟩
  · intro h1
    simp [selectJsonString, h1]
  · intro h1 h2
    simp [selectJsonString, h1, h2]
  · intro h1 h2
    simp [selectJsonString, h1, h2]
  · intro hp
    exact ⟨processAgentResponse_parse_fail env jsonLoads ctx tracker response e hp,
      by simp [recordToolCall]⟩

/-- Witness for C6: a tagged reply selects the tag content (stage 1), and the
reply "not json at all" fails every stage and produces the recorded failure. -/
theorem c6_three_stage_extraction_witness :
    selectJsonString "<json> \x7b\"name\":\"x\"\x7d </json>" = "\x7b\"name\":\"x\"\x7d" ∧
    processAgentResponse stubEnv jlFail initEvalCtx freshTracker "not json at all" =
      .ok ⟨parseErrorMessage "Expecting value" "not json at all", initEvalCtx,
        recordToolCall freshTracker (some "json_parse")
          [("response_excerpt", strTake 500 "not json at all")] false none
          (some "Expecting value")⟩ :=
  ⟨(c6_three_stage_extraction stubEnv jlFail initEvalCtx freshTracker
      "<json> \x7b\"name\":\"x\"\x7d </json>" "\x7b\"name\":\"x\"\x7d" "").1 (by decide),
   ((c6_three_stage_extraction stubEnv jlFail initEvalCtx freshTracker
      "not json at all" "" "Expecting value").2.2.2 rfl).1⟩

/-- Claim C7: a parsed tool call is dispatched without raising (the turn
returns a reply), and every dispatch is recorded in the session metrics with
its arguments and the reply as its result (success mirroring the dispatcher's
outcome); a call whose name is not one of the five registered tools fails with
"Unknown tool: ...", which is caught, converted to an `Error: ...` reply for
the participant, and leaves the completion flag untouched so the session
continues. -/
theorem c7_unknown_tool_recovery (env : ExecEnv)
    (jsonLoads : String → Except String PyJson)
    (ctx : EvalCtx) (tracker : Tracker) (response : String) (act : AgentAction)
    (hparse : jsonLoads (selectJsonString response) = .ok (.obj act)) :
    ∃ step : StepResult,
      processAgentResponse env jsonLoads ctx tracker response = .ok step ∧
      (∃ rec : ToolCallRecord,
        step.tracker.tool_calls = tracker.tool_calls ++ [rec] ∧
        rec.tool_name = act.name ∧ rec.args = act.arguments ∧
        rec.result = some step.reply ∧
        (rec.success = true ↔ (executeTool env ctx act.name act.arguments).isOk = true)) ∧
      (act.name ∉ knownToolNames →
        executeTool env ctx act.name act.arguments =
          .error ("Unknown tool: " ++ pyStr act.name) ∧
        step.reply = "Error: " ++ ("Unknown tool: " ++ pyStr act.name) ∧
        step.tracker.level_completed = tracker.level_completed) := by
  have hunknown : act.name ∉ knownToolNames →
      executeTool env ctx act.name act.arguments =
        .error ("Unknown tool: " ++ pyStr act.name) := by
    intro hn
    simp only [knownToolNames, List.mem_cons, List.mem_singleton, not_or] at hn
    obtain ⟨h1, h2, h3, h4, h5, -⟩ := hn
    rw [executeTool, if_neg h1, if_neg h2, if_neg h3, if_neg h4, if_neg h5]
  cases hex : executeTool env ctx act.name act.arguments with
  | ok v =>
    obtain ⟨result, ctx2, comp⟩ := v
    refine ⟨⟨result, ctx2,
        recordToolCall (if comp then { tracker with level_completed := true } else tracker)
          act.name act.arguments true (some result) none⟩, ?_, ?_, ?_⟩
    · simp [processAgentResponse, hparse, hex]
    · refine ⟨⟨act.name, act.arguments, true, some result, none⟩, ?_, rfl, rfl, rfl,
        iff_of_true rfl rfl⟩
      cases comp <;> simp [recordToolCall]
    · intro hn
      rw [hunknown hn] at hex
      exact Except.noConfusion hex
  | error err =>
    refine ⟨⟨"Error: " ++ err, ctx,
        recordToolCall tracker act.name act.arguments false (some ("Error: " ++ err)) none⟩,
      ?_, ?_, ?_⟩
    · simp [processAgentResponse, hparse, hex]
    · exact ⟨⟨act.name, act.arguments, false, some ("Error: " ++ err), none⟩,
        by simp [recordToolCall], rfl, rfl, rfl,
        iff_of_false (fun h => Bool.noConfusion h) (fun h => Bool.noConfusion h)⟩
    · intro hn
      rw [hunknown hn] at hex
      obtain rfl : err = "Unknown tool: " ++ pyStr act.name := (Except.error.inj hex).symm
      exact ⟨rfl, rfl, by simp [recordToolCall]⟩

/-- Witness for C7 at the unregistered tool name "frobnicate". -/
theorem c7_unknown_tool_recovery_witness :
    executeTool stubEnv initEvalCtx (some "frobnicate") [] =
      .error ("Unknown tool: " ++ pyStr (some "frobnicate")) ∧
    ∃ step : StepResult,
      processAgentResponse stubEnv jlFrob initEvalCtx freshTracker "resp" = .ok step ∧
      step.reply = "Error: " ++ ("Unknown tool: " ++ pyStr (some "frobnicate")) := by
  obtain ⟨step, heq, -, hunk⟩ := c7_unknown_tool_recovery stubEnv jlFrob initEvalCtx
    freshTracker "resp" ⟨some "frobnicate", []⟩ rfl
  obtain ⟨hex, hreply, -⟩ := hunk (by decide)
  exact ⟨hex, step, heq, hreply⟩

/-- Claim C8, counterexample: a participant whose first reply is `"true"` —
valid JSON, but a Python `bool`, not an object — makes `json.loads` succeed
and the uncaught `AttributeError` of `action.get("name")` (evaluator.py lines
593-594, outside both `try` blocks) propagate out of the turn loop, which has
no handler: with `max_turns = 3` the session aborts during turn 1 with an
exception, neither marked complete nor with the turn counter at the maximum,
so the loop does not terminate exactly on completion or turn exhaustion. -/
theorem c8_crash_counterexample :
    runA2ALoop stubEnv jlNonObject (fun _ => "true") 3 initEvalCtx =
      .error (attributeErrorMsg "bool") := rfl

/-- Claim C8 as amended: whenever no reply parses to a non-object JSON value,
the turn loop returns normally, uses at most `max_turns` turns, and exits
exactly when the session is marked complete or the turn counter reaches
`max_turns`; repeated parse failures (and tool errors, which the dispatcher
converts to replies) never terminate the session early, so a participant
failing every turn with unparsable replies exhausts exactly its turn budget
without completing; but a reply that is valid JSON and not an object raises an
uncaught `AttributeError` at `action.get` that aborts the session early,
neither completed nor turn-exhausted. -/
theorem c8_loop_termination_amended (env : ExecEnv)
    (jsonLoads : String → Except String PyJson)
    (talk : ℕ → String) (max_turns : ℕ) (ctx : EvalCtx) :
    ((∀ s ty, jsonLoads s ≠ Except.ok (PyJson.nonObject ty)) →
      ∃ r, runA2ALoop env jsonLoads talk max_turns ctx = .ok r ∧
        r.turn_count ≤ max_turns ∧
        (r.tracker.level_completed = true ∨ r.turn_count = max_turns)) ∧
    ((∀ s, ∃ m, jsonLoads s = Except.error m) →
      ∃ r, runA2ALoop env jsonLoads talk max_turns ctx = .ok r ∧
        r.turn_count = max_turns ∧ r.tracker.level_completed = false) ∧
    (∀ ty, jsonLoads (selectJsonString (talk 0)) = Except.ok (PyJson.nonObject ty) →
      0 < max_turns →
      runA2ALoop env jsonLoads talk max_turns ctx = .error (attributeErrorMsg ty)) := by
  refine ⟨fun hobj => ?_, fun hjl => ?_, fun ty hty hmax => ?_⟩
  · obtain ⟨r, hr, h1, h2⟩ := runA2ALoopAux_bounds env jsonLoads talk hobj max_turns 0 ctx
      freshTracker (talk 0)
    exact ⟨r, hr, by omega, by rcases h2 with h | h; exact Or.inl h; exact Or.inr (by omega)⟩
  · obtain ⟨r, hr, h1, h2⟩ := runA2ALoopAux_parse_fail env jsonLoads talk hjl max_turns 0 ctx
      freshTracker (talk 0) rfl
    exact ⟨r, hr, by omega, h2⟩
  · obtain ⟨n, rfl⟩ : ∃ n, max_turns = n + 1 := ⟨max_turns - 1, by omega⟩
    simp [runA2ALoop, runA2ALoopAux, freshTracker, processAgentResponse, hty]

/-- Witness for C8: three turns of unparsable replies exhaust the budget of 3
without completing, while a first reply parsing to a bare boolean aborts the
run with the uncaught attribute error. -/
theorem c8_loop_termination_amended_witness :
    (∃ r, runA2ALoop stubEnv jlFail (fun _ => "x") 3 initEvalCtx = .ok r ∧
      r.turn_count = 3 ∧ r.tracker.level_completed = false) ∧
    runA2ALoop stubEnv jlNonObject (fun _ => "true") 3 initEvalCtx =
      .error (attributeErrorMsg "bool") :=
  ⟨(c8_loop_termination_amended stubEnv jlFail (fun _ => "x") 3 initEvalCtx).2.1
      (fun _ => ⟨"Expecting value", rfl⟩),
   (c8_loop_termination_amended stubEnv jlNonObject (fun _ => "true") 3 initEvalCtx).2.2
      "bool" rfl (by omega)⟩

/-- Claim C9: calling `stop()` twice in a row on the chain environment manager
(given a process handle exists, alive or not — every terminate/wait fate is
covered) or on the sandbox protocol client produces no error on either call
and leaves all connection/account/address state fully cleared both times. -/
theorem c9_stop_idempotent (s : AnvilState) (t : JSSandboxState) (f1 f2 g1 g2 : ProcFate)
    (hs : s.process.isSome) :
    (∃ s1, anvilStop f1 s = .ok s1 ∧ anvilCleared s1 ∧
      ∃ s2, anvilStop f2 s1 = .ok s2 ∧ anvilCleared s2) ∧
    (∃ t1, jsSandboxStop g1 t = .ok t1 ∧ t1.process = none ∧
      ∃ t2, jsSandboxStop g2 t1 = .ok t2 ∧ t2.process = none) := by
  constructor
  · obtain ⟨a, ha⟩ := Option.isSome_iff_exists.mp hs
    refine ⟨⟨none, none, [], none, none⟩, ?_, ?_, ⟨none, none, [], none, none⟩, rfl, ?_⟩
    · simp [anvilStop, ha]
    · simp [anvilCleared]
    · simp [anvilCleared]
  · cases t with
    | mk p =>
      cases p with
      | none => exact ⟨⟨none⟩, rfl, rfl, ⟨none⟩, rfl, rfl⟩
      | some b => exact ⟨⟨none⟩, rfl, rfl, ⟨none⟩, rfl, rfl⟩

/-- Witness for C9 at a fully populated manager state and a live sandbox. -/
theorem c9_stop_idempotent_witness :
    (∃ s1, anvilStop .exitsGracefully
        ⟨some true, some "http://127.0.0.1:8545", ["0xabc"], some "0xE", some "[]"⟩ = .ok s1 ∧
      anvilCleared s1 ∧
      ∃ s2, anvilStop .needsKill s1 = .ok s2 ∧ anvilCleared s2) ∧
    (∃ t1, jsSandboxStop .exitsGracefully ⟨some true⟩ = .ok t1 ∧ t1.process = none ∧
      ∃ t2, jsSandboxStop .exitsGracefully t1 = .ok t2 ∧ t2.process = none) :=
  c9_stop_idempotent ⟨some true, some "http://127.0.0.1:8545", ["0xabc"], some "0xE", some "[]"⟩
    ⟨some true⟩ .exitsGracefully .needsKill .exitsGracefully .exitsGracefully rfl

/-- Claim C10: the reported winner is "agent" exactly when the aggregate
success rate is at least 0.5, and a run with zero recorded sessions has
`levels_attempted = 0`, success rate 0.0 and winner "evaluator". -/
theorem c10_winner_threshold (lms : List LevelMetrics) :
    (decideWinner (calculateAggregateMetrics lms) = "agent" ↔
      (1:ℚ)/2 ≤ (calculateAggregateMetrics lms).success_rate) ∧
    (calculateAggregateMetrics ([] : List LevelMetrics)).levels_attempted = 0 ∧
    (calculateAggregateMetrics ([] : List LevelMetrics)).levels_completed = 0 ∧
    (calculateAggregateMetrics ([] : List LevelMetrics)).success_rate = 0 ∧
    decideWinner (calculateAggregateMetrics ([] : List LevelMetrics)) = "evaluator" := by
  refine ⟨?_, rfl, rfl, rfl, ?_⟩
  · unfold decideWinner
    split
    · exact iff_of_true rfl (by assumption)
    · exact iff_of_false (by decide) (by assumption)
  · unfold decideWinner
    rw [if_neg]
    norm_num [calculateAggregateMetrics]

end Ethernaut
